import Mathlib

/-!
Shallow embedding of the computational core of the `Journal-Automatic`
trading-journal application (`src/app.py`).

Numeric quantities (prices, pips, lot sizes, P&L, balances) are modelled as
rationals (`ℚ`); the Python source performs the same arithmetic on IEEE
doubles.  UI variables that hold user-entered strings and are parsed with
`float(...)` at the point of use are modelled as `Option ℚ` (`none` = the
string does not parse, which the source catches as `ValueError`).
Times of day are modelled as minutes since UTC midnight (`Nat`, `< 1440`);
all session boundaries in the source's table sit on whole hours, so the
Boolean comparisons on `datetime.time` values factor through this
quotient.
-/

namespace Journal

/-- `PIP_VALUE_XAUUSD = 0.1` (app.py line 16). -/
def PIP_VALUE_XAUUSD : ℚ := 1 / 10

/-- `USD_PER_PIP_PER_LOT = 10` (app.py line 17). -/
def USD_PER_PIP_PER_LOT : ℚ := 10

/-- Trade direction, the `trade_type` of a trade (`"Buy"` / `"Sell"`). -/
inductive Direction where
  | buy
  | sell
deriving DecidableEq

/-- Which of the two synced level fields a conversion is for:
stop-loss (`update_sl_*`) or take-profit (`update_tp_*`). -/
inductive Role where
  | sl
  | tp
deriving DecidableEq

/-- The price computed from a pips distance, branch for branch the
expression `price = entry ∓ pips * PIP_VALUE_XAUUSD` of
`update_sl_from_pips` (app.py lines 1638-1641) and `update_tp_from_pips`
(lines 1678-1681).  The UI afterwards stores `round(price, 2)` into the
price field; the conversion itself is this linear map. -/
def priceFromPips (entry pips : ℚ) : Direction → Role → ℚ
  | .buy, .sl => entry - pips * PIP_VALUE_XAUUSD
  | .sell, .sl => entry + pips * PIP_VALUE_XAUUSD
  | .buy, .tp => entry + pips * PIP_VALUE_XAUUSD
  | .sell, .tp => entry - pips * PIP_VALUE_XAUUSD

/-- The pips distance recovered from a price, before the final
`round(_, 1)`: the expression `(entry - price) / PIP_VALUE_XAUUSD`
(resp. with the operands swapped) of `update_sl_from_price`
(app.py lines 1658-1661) and `update_tp_from_price` (lines 1698-1701). -/
def pipsFromPricePre (entry price : ℚ) : Direction → Role → ℚ
  | .buy, .sl => (entry - price) / PIP_VALUE_XAUUSD
  | .sell, .sl => (price - entry) / PIP_VALUE_XAUUSD
  | .buy, .tp => (price - entry) / PIP_VALUE_XAUUSD
  | .sell, .tp => (entry - price) / PIP_VALUE_XAUUSD

/-- Python 3 `round(x)`: nearest integer, ties to the even integer. -/
def rndHalfEven (x : ℚ) : ℤ :=
  let f := ⌊x⌋
  let r := x - (f : ℚ)
  if r < 1 / 2 then f
  else if 1 / 2 < r then f + 1
  else if f % 2 = 0 then f else f + 1

/-- Python `str.strip()`: drop leading and trailing whitespace. -/
def pyStrip (s : String) : String :=
  ⟨((s.data.dropWhile Char.isWhitespace).reverse.dropWhile
      Char.isWhitespace).reverse⟩

/-- Python `str.lower()` (the strings compared in the source are ASCII). -/
def pyLower (s : String) : String := ⟨s.data.map Char.toLower⟩

/-- Python `round(x, 1)` (one decimal digit, ties to even). -/
def round1 (x : ℚ) : ℚ := (rndHalfEven (10 * x) : ℚ) / 10

/-- Python `round(x, 2)` (two decimal digits, ties to even). -/
def round2 (x : ℚ) : ℚ := (rndHalfEven (100 * x) : ℚ) / 100

/-- The rounded pips value stored back into the pips field:
`pips = round((entry - price) / PIP_VALUE_XAUUSD, 1)` of
`update_sl_from_price` / `update_tp_from_price` (app.py lines 1659, 1699). -/
def pipsFromPrice (entry price : ℚ) (d : Direction) (r : Role) : ℚ :=
  round1 (pipsFromPricePre entry price d r)

/-- The rounded price value stored back into the price field by
`update_sl_from_pips` / `update_tp_from_pips` (app.py lines 1644, 1684). -/
def storedPriceFromPips (entry pips : ℚ) (d : Direction) (r : Role) : ℚ :=
  round2 (priceFromPips entry pips d r)

/-! ### Market session classifier (app.py lines 39-44, 1745-1792) -/

/-- One row of `MARKET_SESSIONS_UTC`: a name and a `[start, stop)` window,
in minutes since UTC midnight. -/
structure Session where
  name : String
  start : Nat
  stop : Nat

/-- The fixed table `MARKET_SESSIONS_UTC` (app.py lines 39-44):
Sydney 21:00-06:00, Tokyo 00:00-09:00, London 08:00-17:00,
New York 13:00-22:00. -/
def MARKET_SESSIONS_UTC : List Session :=
  [⟨"Sydney", 21 * 60, 6 * 60⟩,
   ⟨"Tokyo", 0 * 60, 9 * 60⟩,
   ⟨"London", 8 * 60, 17 * 60⟩,
   ⟨"New York", 13 * 60, 22 * 60⟩]

/-- The open-ness test of `update_market_session` (app.py lines 1772-1775):
`start <= t < end` when `start < end`, else wraparound
`t >= start or t < end`. -/
def isOpen (s : Session) (t : Nat) : Bool :=
  if s.start < s.stop then decide (s.start ≤ t) && decide (t < s.stop)
  else decide (s.start ≤ t) || decide (t < s.stop)

/-- `active_sessions` collected by the loop at app.py lines 1769-1777. -/
def activeSessions (t : Nat) : List String :=
  ((MARKET_SESSIONS_UTC.filter fun s => isOpen s t).map fun s => s.name)

/-- All ordered pairs `"A+B"` with `A` before `B` in the list, in the
order produced by the nested loops at app.py lines 1780-1782. -/
def overlapPairs : List String → List String
  | [] => []
  | x :: xs => (xs.map fun y => x ++ "+" ++ y) ++ overlapPairs xs

/-- Python `" / ".join(l)`. -/
def joinSep : List String → String
  | [] => ""
  | [x] => x
  | x :: xs => x ++ " / " ++ joinSep xs

/-- The session string computed by `update_market_session`
(app.py lines 1769-1792) from a UTC time-of-day in minutes. -/
def sessionString (t : Nat) : String :=
  let active := activeSessions t
  let overlaps := if 1 < active.length then overlapPairs active else []
  if overlaps ≠ [] then joinSep overlaps
  else if active ≠ [] then joinSep active
  else "Closed"

/-! ### Trade data model (app.py lines 58-137) -/

/-- One partial-close record, the dictionary built at app.py
lines 1174-1181. -/
structure PartialClose where
  timestamp : String
  amount : ℚ
  price : ℚ
  pips : ℚ
  reason_for_close : String
  pnl : ℚ

/-- The `info` fields of a trade that the P&L computations read
(app.py lines 819-822 and analogous sites); set once at creation. -/
structure TradeInfo where
  entry_price : ℚ
  lot_size : ℚ
  trade_type : String

/-- The `review` dictionary of a trade (app.py lines 68-74).  `price` is
stored as a string in the source and parsed with `float(...)` at each use;
it is modelled as the parse result (`none` = `ValueError`). -/
structure Review where
  outcome : String
  price : Option ℚ
  notes : String
  exit_time : String
  max_drawdown_pips : String

/-- A trade record restricted to the fields the claims are about. -/
structure Trade where
  info : TradeInfo
  review : Review
  partial_closes : List PartialClose
  sl_to_be : Bool

/-- `sum(pc.get("pnl", 0.0) for pc in trade.partial_closes)`. -/
def sumPnl (l : List PartialClose) : ℚ := (l.map fun pc => pc.pnl).sum

/-- `sum(pc.get("amount", 0) for pc in trade.partial_closes)`. -/
def sumAmounts (l : List PartialClose) : ℚ := (l.map fun pc => pc.amount).sum

/-- `sum(pc.get("pips", 0.0) for pc in trade.partial_closes)`. -/
def sumPips (l : List PartialClose) : ℚ := (l.map fun pc => pc.pips).sum

/-- `pips_moved` as computed at app.py lines 836-839 (and the identical
blocks at lines 925-928 and 1485-1488): direction-signed price move
divided by the pip value, branching on `trade_type == "Buy"`. -/
def pipsMoved (entry close : ℚ) (trade_type : String) : ℚ :=
  if trade_type = "Buy" then (close - entry) / PIP_VALUE_XAUUSD
  else (entry - close) / PIP_VALUE_XAUUSD

/-- The terminal outcome list tested at app.py lines 828, 914:
`["Take Profit Hit", "Stoploss Hit", "Breakeven", "Other"]`. -/
def terminalOutcomes : List String :=
  ["Take Profit Hit", "Stoploss Hit", "Breakeven", "Other"]

/-- The per-trade row figures computed by `refresh_trades_tree`. -/
structure DisplayRow where
  total_pnl : ℚ
  total_pips : ℚ
  status : String

/-- The per-trade computation of `refresh_trades_tree`
(app.py lines 814-854): partial-close sums, a final leg when the outcome
is terminal, the close price parses and lots remain, and the
Win/Loss/Breakeven label from the sign of the total.  When
`float(review["price"])` raises (`price = none`) the `except` clauses at
lines 851-854 leave the status at `"Open"` and the totals at the partial
sums. -/
def tradeDisplay (t : Trade) : DisplayRow :=
  let pnl0 := sumPnl t.partial_closes
  let pips0 := sumPips t.partial_closes
  if t.review.outcome ∈ terminalOutcomes then
    match t.review.price with
    | none => ⟨pnl0, pips0, "Open"⟩
    | some close_price =>
      let remaining := t.info.lot_size - sumAmounts t.partial_closes
      let moved := pipsMoved t.info.entry_price close_price t.info.trade_type
      let pips1 := if remaining > 0 then pips0 + moved else pips0
      let pnl1 :=
        if remaining > 0 then pnl0 + moved * remaining * USD_PER_PIP_PER_LOT
        else pnl0
      ⟨pnl1, pips1,
        if pnl1 > 0 then "Win" else if pnl1 < 0 then "Loss" else "Breakeven"⟩
  else ⟨pnl0, pips0, "Open"⟩

/-! ### Closing a trade (app.py lines 1461-1501) -/

/-- The popup fields read by `close_trade_update_balance`; `price` is the
close-price entry's text, modelled as its parse result. -/
structure CloseInputs where
  outcome : String
  price : Option ℚ
  notes : String
  exit_time : String
  max_drawdown_pips : String
  sl_to_be : Bool

/-- `final_pnl` of `close_trade_update_balance` (app.py lines 1470-1494):
the partial-close pnl sum, plus — when the close price parses and the
remaining lot size is positive — the final-leg P&L.  A `ValueError` on
`float(review["price"])` is caught and leaves `final_pnl` at the partial
sum. -/
def finalPnl (t : Trade) (price : Option ℚ) : ℚ :=
  let base := sumPnl t.partial_closes
  match price with
  | none => base
  | some close_price =>
    let remaining := t.info.lot_size - sumAmounts t.partial_closes
    if remaining > 0 then
      base + pipsMoved t.info.entry_price close_price t.info.trade_type *
        remaining * USD_PER_PIP_PER_LOT
    else base

/-- `close_trade_update_balance` (app.py lines 1461-1501): overwrite the
review fields and `sl_to_be` from the popup, recompute `final_pnl`, and
add it to the account balance.  Returns the updated trade and balance. -/
def closeTradeUpdateBalance (t : Trade) (i : CloseInputs) (balance : ℚ) :
    Trade × ℚ :=
  let t' : Trade :=
    { t with
      review :=
        { outcome := i.outcome
          price := i.price
          notes := i.notes
          exit_time := i.exit_time
          max_drawdown_pips := i.max_drawdown_pips }
      sl_to_be := i.sl_to_be }
  (t', balance + finalPnl t' i.price)

/-! ### Adding a partial close (app.py lines 1152-1203) -/

/-- The popup fields read by `add_partial_close_entry`. -/
structure PartialInput where
  amount : ℚ
  price : ℚ
  pips : ℚ
  reason : String

/-- `add_partial_close_entry` (app.py lines 1152-1203): validations in
source order — non-positive amount or zero price-and-pips, amount above
the remaining lot size plus the `0.0001` tolerance (line 1164), empty
stripped reason — each reject the insertion and leave the trade as it
was; otherwise the new record (with `pnl = pips * amount *
USD_PER_PIP_PER_LOT`) is appended.  Returns whether the insertion was
accepted, with the resulting trade. -/
def addPartialCloseEntry (t : Trade) (i : PartialInput) (now : String) :
    Bool × Trade :=
  if i.amount ≤ 0 ∨ (i.price = 0 ∧ i.pips = 0) then (false, t)
  else if i.amount > t.info.lot_size - sumAmounts t.partial_closes + 1 / 10000 then
    (false, t)
  else if pyStrip i.reason = "" then (false, t)
  else
    (true,
      { t with
        partial_closes :=
          t.partial_closes ++
            [{ timestamp := now
               amount := i.amount
               price := i.price
               pips := i.pips
               reason_for_close := pyStrip i.reason
               pnl := i.pips * i.amount * USD_PER_PIP_PER_LOT }] })

/-! ### Stats bar (app.py lines 907-937) -/

/-- The win counter of `update_stats_bar` (app.py line 933):
`outcome.lower() == "take profit hit"`. -/
def winsCount (trades : List Trade) : Nat :=
  trades.countP fun t => pyLower t.review.outcome == "take profit hit"

/-- The loss counter of `update_stats_bar` (app.py line 934):
`outcome.lower() == "stoploss hit"`. -/
def lossesCount (trades : List Trade) : Nat :=
  trades.countP fun t => pyLower t.review.outcome == "stoploss hit"

/-- The win rate of `update_stats_bar` (app.py line 935):
`int(round(100 * wins / total)) if total > 0 else 0`. -/
def winRate (trades : List Trade) : ℤ :=
  if 0 < trades.length then
    rndHalfEven ((100 * winsCount trades : ℚ) / trades.length)
  else 0

/-- The outcome values the review popup can store (app.py lines 30, 1233-
1249 via the combobox): the data-model domain of `review["outcome"]`. -/
def allowedOutcomes : List String :=
  ["", "Take Profit Hit", "Stoploss Hit", "Breakeven", "Other"]

/-! ### Partial-close normalization at load (app.py lines 116-125) -/

/-- A partial-close record as read from the journal JSON, before
`Trade.from_dict` normalizes it.  Each field is `none` when the key is
absent; `notes` is additionally nullable when present
(`some none` = key present with JSON `null`). -/
structure PCJson where
  timestamp : Option String := none
  amount : Option ℚ := none
  price : Option ℚ := none
  pips : Option ℚ := none
  reason_for_close : Option String := none
  notes : Option (Option String) := none
  pnl : Option ℚ := none

/-- The normalization loop body of `Trade.from_dict` (app.py lines
117-125): `pc.setdefault("pips", 0.0)`; when `reason_for_close` is absent
it is backfilled from a present non-null legacy `notes` value, else set
to `""`, and the `notes` key is popped; `pc.setdefault("pnl", 0.0)`. -/
def normalizePartialClose (pc : PCJson) : PCJson :=
  let pc1 := { pc with pips := some (pc.pips.getD 0) }
  let pc2 :=
    if pc1.reason_for_close = none then
      match pc1.notes with
      | some (some s) => { pc1 with reason_for_close := some s, notes := none }
      | _ => { pc1 with reason_for_close := some "", notes := none }
    else pc1
  { pc2 with pnl := some (pc2.pnl.getD 0) }

/-! ### Playbook option store (app.py lines 231-237, 625-638) -/

/-- The three user-visible outcomes of `_add_playbook_item`: the item was
added, the input was empty (warning), or it was a duplicate (info box). -/
inductive AddOutcome where
  | added
  | emptyInput
  | duplicate
deriving DecidableEq

/-- Result of `_add_playbook_item`: the signal shown to the user, the
in-memory options list afterwards, and what `save_playbook_options`
persisted (`none` = nothing written). -/
structure AddResult where
  outcome : AddOutcome
  options : List String
  persisted : Option (List String)

/-- `_add_playbook_item` (app.py lines 625-638): strip the entry text; if
it is non-empty and not already present, append it, sort the list
(Python `list.sort()`, lexicographic), and persist the sorted list via
`save_playbook_options`; an empty input warns and a duplicate informs,
both leaving the list untouched and writing nothing. -/
def addPlaybookItem (options : List String) (raw : String) : AddResult :=
  let newItem := pyStrip raw
  if newItem ≠ "" ∧ newItem ∉ options then
    let sorted := (options ++ [newItem]).mergeSort fun a b => decide (a ≤ b)
    ⟨.added, sorted, some sorted⟩
  else if newItem = "" then ⟨.emptyInput, options, none⟩
  else ⟨.duplicate, options, none⟩

/-! ### Helper lemmas -/

lemma pipsFromPricePre_priceFromPips (entry p : ℚ) (d : Direction) (r : Role) :
    pipsFromPricePre entry (priceFromPips entry p d r) d r = p := by
  cases d <;> cases r <;>
    simp [priceFromPips, pipsFromPricePre, PIP_VALUE_XAUUSD]

lemma sign_label (x : ℚ) :
    (0 < x → (if x > 0 then "Win" else if x < 0 then "Loss" else "Breakeven") = "Win") ∧
    (x < 0 → (if x > 0 then "Win" else if x < 0 then "Loss" else "Breakeven") = "Loss") ∧
    (x = 0 → (if x > 0 then "Win" else if x < 0 then "Loss" else "Breakeven") = "Breakeven") := by
  refine ⟨?_, ?_, ?_⟩ <;> intro h <;> split_ifs <;> first | rfl | linarith

lemma activeSessions_length_le_two (t : Nat) : (activeSessions t).length ≤ 2 := by
  simp only [activeSessions, MARKET_SESSIONS_UTC, List.filter, isOpen]
  norm_num
  repeat' split
  all_goals simp_all
  all_goals omega

lemma overlapPairs_ne_nil (a b : String) (l : List String) :
    overlapPairs (a :: b :: l) ≠ [] := by
  simp [overlapPairs]

lemma sessionString_nil (t : Nat) (h : activeSessions t = []) :
    sessionString t = "Closed" := by
  simp [sessionString, h, overlapPairs, joinSep]

lemma sessionString_single (t : Nat) (n : String) (h : activeSessions t = [n]) :
    sessionString t = n := by
  simp [sessionString, h, overlapPairs, joinSep]

lemma sessionString_pair (t : Nat) (a b : String) (h : activeSessions t = [a, b]) :
    sessionString t = a ++ "+" ++ b := by
  simp [sessionString, h, overlapPairs, joinSep]

lemma sessionString_multi (t : Nat) (hlen : 1 < (activeSessions t).length) :
    sessionString t = joinSep (overlapPairs (activeSessions t)) := by
  rcases hA : activeSessions t with _ | ⟨a, _ | ⟨b, l⟩⟩
  · rw [hA] at hlen; simp at hlen
  · rw [hA] at hlen; simp at hlen
  · rw [hA] at hlen
    simp only [sessionString, hA, hlen, if_pos]
    rw [if_pos (overlapPairs_ne_nil a b l)]

lemma lower_eq_tph (o : String) (ho : o ∈ allowedOutcomes) :
    (pyLower o == "take profit hit") = (o == "Take Profit Hit") := by
  fin_cases ho <;> decide

lemma lower_eq_slh (o : String) (ho : o ∈ allowedOutcomes) :
    (pyLower o == "stoploss hit") = (o == "Stoploss Hit") := by
  fin_cases ho <;> decide

/-! ### Claim theorems -/

/-- C1: for every direction, role, entry price and pips value `p ≥ 0`,
converting pips to a price with the direction/role sign convention and
back reproduces `p` within `1e-6` before the final rounding to one
decimal (in exact arithmetic the round trip is the identity, so the
difference is `0`). -/
theorem pips_price_roundtrip (entry p : ℚ) (d : Direction) (r : Role)
    (_hp : 0 ≤ p) :
    |pipsFromPricePre entry (priceFromPips entry p d r) d r - p| ≤ 1 / 1000000 := by
  rw [pipsFromPricePre_priceFromPips]
  simp

/-- C1 witness: the round trip at entry 2300, 50 pips, Buy stop-loss. -/
theorem pips_price_roundtrip_witness :
    (0 : ℚ) ≤ 50 ∧
      |pipsFromPricePre 2300 (priceFromPips 2300 50 .buy .sl) .buy .sl - 50| ≤
        1 / 1000000 :=
  ⟨by norm_num, pips_price_roundtrip 2300 50 .buy .sl (by norm_num)⟩

/-- C6: `priceFromPips` follows the direction/role sign convention — for a
stop-loss Buy subtracts and Sell adds `pips * pip_value`, for a
take-profit the signs flip — and `pipsFromPrice` is its inverse with the
result rounded to one decimal. -/
theorem conversion_sign_convention (entry p price : ℚ) :
    priceFromPips entry p .buy .sl = entry - p * PIP_VALUE_XAUUSD ∧
    priceFromPips entry p .sell .sl = entry + p * PIP_VALUE_XAUUSD ∧
    priceFromPips entry p .buy .tp = entry + p * PIP_VALUE_XAUUSD ∧
    priceFromPips entry p .sell .tp = entry - p * PIP_VALUE_XAUUSD ∧
    (∀ d r, pipsFromPrice entry price d r = round1 (pipsFromPricePre entry price d r)) ∧
    (∀ d r, pipsFromPrice entry (priceFromPips entry p d r) d r = round1 p) :=
  ⟨rfl, rfl, rfl, rfl, fun _ _ => rfl,
   fun d r => by rw [pipsFromPrice, pipsFromPricePre_priceFromPips]⟩

/-- C2 counterexample: the claim that the amount sum never exceeds the
initial lot size fails: with lot size 1 and no prior partial closes, the
insertion of amount `1.00005` is accepted (the guard allows a `0.0001`
tolerance, app.py line 1164) and the resulting sum exceeds the lot
size. -/
theorem partial_close_sum_counterexample :
    (addPartialCloseEntry
        ⟨⟨2300, 1, "Buy"⟩, ⟨"", none, "", "", ""⟩, [], false⟩
        ⟨20001 / 20000, 2310, 100, "Other"⟩ "ts").1 = true ∧
    (1 : ℚ) <
      sumAmounts
        (addPartialCloseEntry
            ⟨⟨2300, 1, "Buy"⟩, ⟨"", none, "", "", ""⟩, [], false⟩
            ⟨20001 / 20000, 2310, 100, "Other"⟩ "ts").2.partial_closes := by
  have hs : pyStrip "Other" = "Other" := by decide
  have h0 : ("Other" : String) ≠ "" := by decide
  unfold addPartialCloseEntry
  norm_num [hs, h0, sumAmounts]

/-- C2 (amended): after every accepted partial-close insertion the sum of
`amount` over the trade's partial closes is at most the initial lot size
plus the source's `0.0001` tolerance, and an insertion whose amount
exceeds the remaining lot size by more than that tolerance is rejected
with the trade left unchanged. -/
theorem partial_close_sum_invariant (t : Trade) (i : PartialInput) (now : String) :
    ((addPartialCloseEntry t i now).1 = true →
       sumAmounts (addPartialCloseEntry t i now).2.partial_closes ≤
         t.info.lot_size + 1 / 10000) ∧
    (t.info.lot_size - sumAmounts t.partial_closes + 1 / 10000 < i.amount →
       addPartialCloseEntry t i now = (false, t)) := by
  unfold addPartialCloseEntry
  split_ifs with h1 h2 h3
  · exact ⟨by simp, fun _ => rfl⟩
  · exact ⟨by simp, fun _ => rfl⟩
  · exact ⟨by simp, fun _ => rfl⟩
  · refine ⟨fun _ => ?_, fun hgt => absurd (gt_iff_lt.mpr hgt) h2⟩
    simp only [sumAmounts, List.map_append, List.sum_append, List.map_cons,
      List.map_nil, List.sum_cons, List.sum_nil]
    have h2' := not_lt.mp h2
    simp only [sumAmounts] at h2'
    linarith

/-- C2 witness: an insertion of amount 2 against remaining lot size 1 is
rejected and leaves the trade unchanged. -/
theorem partial_close_sum_invariant_witness :
    addPartialCloseEntry
        ⟨⟨2300, 1, "Buy"⟩, ⟨"", none, "", "", ""⟩, [], false⟩
        ⟨2, 2310, 100, "Other"⟩ "ts" =
      (false, ⟨⟨2300, 1, "Buy"⟩, ⟨"", none, "", "", ""⟩, [], false⟩) :=
  (partial_close_sum_invariant
      ⟨⟨2300, 1, "Buy"⟩, ⟨"", none, "", "", ""⟩, [], false⟩
      ⟨2, 2310, 100, "Other"⟩ "ts").2 (by norm_num [sumAmounts])

/-- C3: closing a trade persists the review fields and `sl_to_be`,
recomputes the final P&L as the partial-close pnl sum plus (when the
remaining lot size is positive) the final leg, adds it to the balance
exactly once per invocation, and does not itself prevent re-closing: a
second invocation adds the same amount again. -/
theorem close_trade_spec (t : Trade) (i : CloseInputs) (b cp : ℚ)
    (h : i.price = some cp) :
    (closeTradeUpdateBalance t i b).1.review =
        ⟨i.outcome, i.price, i.notes, i.exit_time, i.max_drawdown_pips⟩ ∧
    (closeTradeUpdateBalance t i b).1.sl_to_be = i.sl_to_be ∧
    (closeTradeUpdateBalance t i b).1.info = t.info ∧
    (closeTradeUpdateBalance t i b).1.partial_closes = t.partial_closes ∧
    (closeTradeUpdateBalance t i b).2 =
      b + (sumPnl t.partial_closes +
        if t.info.lot_size - sumAmounts t.partial_closes > 0 then
          pipsMoved t.info.entry_price cp t.info.trade_type *
            (t.info.lot_size - sumAmounts t.partial_closes) * USD_PER_PIP_PER_LOT
        else 0) ∧
    (closeTradeUpdateBalance (closeTradeUpdateBalance t i b).1 i
        (closeTradeUpdateBalance t i b).2).2 =
      (closeTradeUpdateBalance t i b).2 + ((closeTradeUpdateBalance t i b).2 - b) := by
  refine ⟨rfl, rfl, rfl, rfl, ?_, ?_⟩
  · simp only [closeTradeUpdateBalance, finalPnl, h]
    split_ifs <;> ring
  · simp only [closeTradeUpdateBalance, finalPnl, h]
    split_ifs <;> ring

/-- C3 witness: closing a fresh Buy trade (entry 2300, lot 1) at 2310
adds the final-leg P&L to the balance. -/
theorem close_trade_spec_witness :
    (closeTradeUpdateBalance
        ⟨⟨2300, 1, "Buy"⟩, ⟨"", none, "", "", ""⟩, [], false⟩
        ⟨"Other", some 2310, "n", "", "", true⟩ 10000).2 =
      10000 + (sumPnl [] +
        if (1 : ℚ) - sumAmounts [] > 0 then
          pipsMoved 2300 2310 "Buy" * (1 - sumAmounts []) * USD_PER_PIP_PER_LOT
        else 0) :=
  (close_trade_spec
      ⟨⟨2300, 1, "Buy"⟩, ⟨"", none, "", "", ""⟩, [], false⟩
      ⟨"Other", some 2310, "n", "", "", true⟩ 10000 2310 rfl).2.2.2.2.1

/-- C4: for a trade whose close price parses, the displayed total P&L is
the partial-close pnl sum plus a final leg exactly when the outcome is
terminal and lots remain; the Win/Loss/Breakeven label follows the sign
of that total, and a trade without a terminal outcome is labeled
"Open". -/
theorem trade_display_spec (t : Trade) (cp : ℚ) (h : t.review.price = some cp) :
    (t.review.outcome ∈ terminalOutcomes →
       (tradeDisplay t).total_pnl =
         sumPnl t.partial_closes +
           (if t.info.lot_size - sumAmounts t.partial_closes > 0 then
             pipsMoved t.info.entry_price cp t.info.trade_type *
               (t.info.lot_size - sumAmounts t.partial_closes) * USD_PER_PIP_PER_LOT
           else 0) ∧
       (0 < (tradeDisplay t).total_pnl → (tradeDisplay t).status = "Win") ∧
       ((tradeDisplay t).total_pnl < 0 → (tradeDisplay t).status = "Loss") ∧
       ((tradeDisplay t).total_pnl = 0 → (tradeDisplay t).status = "Breakeven")) ∧
    (t.review.outcome ∉ terminalOutcomes → (tradeDisplay t).status = "Open") := by
  constructor
  · intro hterm
    simp only [tradeDisplay, if_pos hterm, h]
    refine ⟨by split_ifs <;> ring, ?_, ?_, ?_⟩
    · exact (sign_label _).1
    · exact (sign_label _).2.1
    · exact (sign_label _).2.2
  · intro hterm
    simp only [tradeDisplay, if_neg hterm]

/-- C4 witness: a Buy trade entered at 2300 with lot 1 and closed at
take-profit 2310 displays as "Win". -/
theorem trade_display_spec_witness :
    (tradeDisplay
        ⟨⟨2300, 1, "Buy"⟩, ⟨"Take Profit Hit", some 2310, "", "", ""⟩, [], false⟩).status =
      "Win" := by
  have h := trade_display_spec
    ⟨⟨2300, 1, "Buy"⟩, ⟨"Take Profit Hit", some 2310, "", "", ""⟩, [], false⟩ 2310 rfl
  refine (h.1 (by simp [terminalOutcomes])).2.1 ?_
  norm_num [tradeDisplay, sumPnl, sumAmounts, pipsMoved, terminalOutcomes,
    PIP_VALUE_XAUUSD, USD_PER_PIP_PER_LOT]

/-- C5: the session classifier reports "Closed" when no session is open
and a single open session's name when exactly one is; with more than one
open it joins the pairwise overlaps; 09:30 UTC (minute 570) yields
"London" and 13:30 UTC (minute 810) yields "London+New York". -/
theorem market_session_spec :
    (∀ t, t < 1440 →
       (activeSessions t = [] → sessionString t = "Closed") ∧
       (∀ n, activeSessions t = [n] → sessionString t = n) ∧
       (1 < (activeSessions t).length →
          sessionString t = joinSep (overlapPairs (activeSessions t)))) ∧
    activeSessions 570 = ["London"] ∧
    sessionString 570 = "London" ∧
    sessionString 810 = "London+New York" := by
  refine ⟨fun t _ => ⟨sessionString_nil t, fun n => sessionString_single t n,
    sessionString_multi t⟩, by decide, by decide, by decide⟩

/-- C5 witness: the single-session case applied at 09:30 UTC. -/
theorem market_session_spec_witness : sessionString 570 = "London" :=
  (market_session_spec.1 570 (by norm_num)).2.1 "London" (by decide)

/-- C10: at every UTC time-of-day at most two of the four sessions are
open, so the classifier output is always "Closed", one session name, or
a single pair "A+B" — never two overlap pairs joined by " / ". -/
theorem session_overlap_bound (t : Nat) (_ht : t < 1440) :
    (activeSessions t).length ≤ 2 ∧
    (sessionString t = "Closed" ∨ sessionString t ∈ activeSessions t ∨
       ∃ a b, activeSessions t = [a, b] ∧ sessionString t = a ++ "+" ++ b) := by
  have hlen := activeSessions_length_le_two t
  refine ⟨hlen, ?_⟩
  rcases hA : activeSessions t with _ | ⟨a, _ | ⟨b, _ | ⟨c, l⟩⟩⟩
  · exact Or.inl (sessionString_nil t hA)
  · exact Or.inr (Or.inl (by rw [sessionString_single t a hA]; simp))
  · exact Or.inr (Or.inr ⟨a, b, rfl, sessionString_pair t a b hA⟩)
  · rw [hA] at hlen; simp at hlen

/-- C10 witness: the bound applied at 13:30 UTC. -/
theorem session_overlap_bound_witness : (activeSessions 810).length ≤ 2 :=
  (session_overlap_bound 810 (by norm_num)).1

/-- C7: load-time normalization backfills a missing `reason_for_close`
from a present non-null legacy `notes` value (removing `notes`),
otherwise sets it to the empty string; missing `pips` and `pnl` each
default to 0. -/
theorem load_normalization_spec (pc : PCJson) :
    (pc.reason_for_close = none →
       (∀ s, pc.notes = some (some s) →
          (normalizePartialClose pc).reason_for_close = some s ∧
          (normalizePartialClose pc).notes = none) ∧
       ((pc.notes = none ∨ pc.notes = some none) →
          (normalizePartialClose pc).reason_for_close = some "" ∧
          (normalizePartialClose pc).notes = none)) ∧
    (pc.pips = none → (normalizePartialClose pc).pips = some 0) ∧
    (pc.pnl = none → (normalizePartialClose pc).pnl = some 0) := by
  obtain ⟨ts, am, pr, pi, rc, no, pn⟩ := pc
  refine ⟨?_, ?_, ?_⟩
  · rintro rfl
    refine ⟨?_, ?_⟩
    · rintro s rfl
      simp [normalizePartialClose]
    · rintro (rfl | rfl) <;> simp [normalizePartialClose]
  · rintro rfl
    rcases rc with _ | r
    · rcases no with _ | (_ | s) <;> simp [normalizePartialClose]
    · simp [normalizePartialClose]
  · rintro rfl
    rcases rc with _ | r
    · rcases no with _ | (_ | s) <;> simp [normalizePartialClose]
    · simp [normalizePartialClose]

/-- C7 witness: a record with legacy `notes: "abc"` and no
`reason_for_close` normalizes to `reason_for_close = "abc"` with `notes`
dropped. -/
theorem load_normalization_spec_witness :
    (normalizePartialClose
        { reason_for_close := none, notes := some (some "abc") }).reason_for_close =
      some "abc" ∧
    (normalizePartialClose
        { reason_for_close := none, notes := some (some "abc") }).notes = none :=
  ((load_normalization_spec
      { reason_for_close := none, notes := some (some "abc") }).1 rfl).1 "abc" rfl

/-- C8: adding an item already present (case-sensitive exact match) is
rejected with the duplicate signal and the stored list is unchanged and
not rewritten; adding a new non-empty item produces the sorted extension
of the list and persists exactly that sorted list. -/
theorem add_playbook_spec (options : List String) (raw : String)
    (h1 : pyStrip raw = raw) (h2 : raw ≠ "") :
    (raw ∈ options → addPlaybookItem options raw = ⟨.duplicate, options, none⟩) ∧
    (raw ∉ options →
       (addPlaybookItem options raw).outcome = .added ∧
       (addPlaybookItem options raw).options =
         (options ++ [raw]).mergeSort (fun a b => decide (a ≤ b)) ∧
       (addPlaybookItem options raw).options.Perm (options ++ [raw]) ∧
       (addPlaybookItem options raw).options.Sorted (· ≤ ·) ∧
       (addPlaybookItem options raw).persisted =
         some (addPlaybookItem options raw).options) := by
  constructor
  · intro hmem
    simp [addPlaybookItem, h1, h2, hmem]
  · intro hmem
    simp only [addPlaybookItem, h1]
    rw [if_pos ⟨h2, hmem⟩]
    refine ⟨rfl, rfl, ?_, ?_, rfl⟩
    · exact List.mergeSort_perm _ _
    · exact List.sorted_mergeSort' _

/-- C8 witness: adding "ATR" to ["Breakout", "Reversal"] succeeds and
persists the new sorted list. -/
theorem add_playbook_spec_witness :
    (addPlaybookItem ["Breakout", "Reversal"] "ATR").outcome = .added ∧
    (addPlaybookItem ["Breakout", "Reversal"] "ATR").persisted =
      some (addPlaybookItem ["Breakout", "Reversal"] "ATR").options := by
  have h := (add_playbook_spec ["Breakout", "Reversal"] "ATR" (by decide)
    (by decide)).2 (by decide)
  exact ⟨h.1, h.2.2.2.2⟩

/-- C9: over trades whose outcomes lie in the review popup's domain, the
win count is the number of "Take Profit Hit" outcomes, the loss count
the number of "Stoploss Hit" outcomes, the win rate is
`round(100*wins/total)` (0 for an empty list), and any 3 trades with 1
win give a win rate of 33. -/
theorem stats_spec (trades : List Trade)
    (h : ∀ t ∈ trades, t.review.outcome ∈ allowedOutcomes) :
    winsCount trades = trades.countP (fun t => t.review.outcome == "Take Profit Hit") ∧
    lossesCount trades = trades.countP (fun t => t.review.outcome == "Stoploss Hit") ∧
    winRate trades =
      (if trades.length = 0 then 0
       else rndHalfEven ((100 * winsCount trades : ℚ) / trades.length)) ∧
    (trades.length = 3 → winsCount trades = 1 → winRate trades = 33) := by
  refine ⟨?_, ?_, ?_, ?_⟩
  · unfold winsCount
    induction trades with
    | nil => rfl
    | cons hd tl ih =>
      simp only [List.countP_cons]
      rw [ih (fun t ht => h t (List.mem_cons_of_mem hd ht)),
        lower_eq_tph hd.review.outcome (h hd (List.mem_cons_self hd tl))]
  · unfold lossesCount
    induction trades with
    | nil => rfl
    | cons hd tl ih =>
      simp only [List.countP_cons]
      rw [ih (fun t ht => h t (List.mem_cons_of_mem hd ht)),
        lower_eq_slh hd.review.outcome (h hd (List.mem_cons_self hd tl))]
  · rcases trades with _ | ⟨hd, tl⟩
    · rfl
    · simp [winRate]
  · intro hlen hw
    simp only [winRate, hlen, hw]
    norm_num [rndHalfEven]

/-- C9 witness: three trades with one "Take Profit Hit" outcome have a
win rate of 33. -/
theorem stats_spec_witness :
    winRate
        [⟨⟨2300, 1, "Buy"⟩, ⟨"Take Profit Hit", some 2310, "", "", ""⟩, [], false⟩,
         ⟨⟨2300, 1, "Buy"⟩, ⟨"Stoploss Hit", some 2290, "", "", ""⟩, [], false⟩,
         ⟨⟨2300, 1, "Buy"⟩, ⟨"", none, "", "", ""⟩, [], false⟩] = 33 := by
  have h := stats_spec
    [⟨⟨2300, 1, "Buy"⟩, ⟨"Take Profit Hit", some 2310, "", "", ""⟩, [], false⟩,
     ⟨⟨2300, 1, "Buy"⟩, ⟨"Stoploss Hit", some 2290, "", "", ""⟩, [], false⟩,
     ⟨⟨2300, 1, "Buy"⟩, ⟨"", none, "", "", ""⟩, [], false⟩] (by decide)
  exact h.2.2.2 rfl (by decide)

end Journal
